import Mathlib

/-
  Shallow embedding of the SF allocator (src/sfallocator.h).

  Modelling conventions:
  - Machine integers are uint64 in the source; we embed them as Nat with an
    explicit % 2^64 wherever the C computation can wrap (addition,
    subtraction, multiplication).
  - Pointers into a pool memory region are embedded as byte offsets from the
    base of that pool OS reservation.  Pointers to pool descriptors are
    embedded as pool identifiers (Nat, in creation order); NULL is none.
  - The memory of a pool is an association list from byte offset to the
    allocation descriptor written there; a store is a cons (the most recent
    write shadows older ones), a load is List.lookup.
  - Struct layouts on x86-64: sfa_pool_descriptor has three pointers, one
    pointer, two uint64 and one bool (padded), 56 bytes; the union of flags
    is one uint64 and sfa_allocation_descriptor is seven 8-byte fields,
    56 bytes.  The two flag bits are embedded as two Bool fields.
  - The OS allocation granularity (__sfa_virtual_size) is a parameter gran;
    on Win32 it is 65536.
  - The while loop in __sfa_find_pool_for_alloc_fast has no loop-variable
    update, so it need not terminate; it is embedded with explicit fuel,
    where a result of none means the loop (or an assertion failure) never
    produced an answer with that much fuel, for any fuel.
-/

namespace SFA

/-- uint64 modulus. -/
def U64 : Nat := 2 ^ 64

/-- uint64 addition (wraps modulo 2^64). -/
def u64_add (a b : Nat) : Nat := (a + b) % U64

/-- uint64 subtraction (wraps modulo 2^64); arguments are uint64 values. -/
def u64_sub (a b : Nat) : Nat := (a + U64 - b) % U64

/-- uint64 multiplication (wraps modulo 2^64). -/
def u64_mul (a b : Nat) : Nat := (a * b) % U64

/-- SFA_ALLOCATION_ALIGNMENT_SIZE = sizeof(uint64_t)*4 = 32. -/
def SFA_ALLOCATION_ALIGNMENT_SIZE : Nat := 32

/-- SFA_ALLOCATION_MINIMUM_SIZE = sizeof(uint64_t)*4 = 32. -/
def SFA_ALLOCATION_MINIMUM_SIZE : Nat := 32

/-- SFA_ALLOCATION_MINIMUM_PAGES_PER_POOL = 4. -/
def SFA_ALLOCATION_MINIMUM_PAGES_PER_POOL : Nat := 4

/-- SFA_DEFAULT_INITIAL_POOL_SIZE = SFA_KILOBYTES(256) = 262144. -/
def SFA_DEFAULT_INITIAL_POOL_SIZE : Nat := 262144

/-- sizeof(sfa_pool_descriptor) on x86-64: 6 eight-byte fields plus a padded
bool, 56 bytes. -/
def sizeof_sfa_pool_descriptor : Nat := 56

/-- sizeof(sfa_allocation_descriptor) on x86-64: 7 eight-byte fields,
56 bytes. -/
def sizeof_sfa_allocation_descriptor : Nat := 56

/-- Allocation descriptor (block header), placed at the front of every
allocation.  Offsets are from the base of the owning pool reservation. -/
structure sfa_allocation_descriptor where
  is_occupied : Bool
  is_coallescable : Bool
  left_descriptor : Option Nat
  right_descriptor : Option Nat
  parent_pool : Option Nat
  block_pointer : Nat
  block_offset : Nat
  allocation_size : Nat
  deriving DecidableEq

/-- Pool descriptor, placed at the front of every pool of pages.
next_pool and prev_pool hold pool identifiers; free_list and memory_region
are byte offsets from the reservation base; mem is the descriptor store of
the region. -/
structure sfa_pool_descriptor where
  next_pool : Option Nat
  prev_pool : Option Nat
  free_list : Nat
  memory_region : Nat
  memory_region_size : Nat
  memory_region_occupancy : Nat
  pool_is_large : Bool
  mem : List (Nat × sfa_allocation_descriptor)
  deriving DecidableEq

/-- Process-wide allocator state (__sfa_get_state).  next_id numbers pools
in creation order; pools maps pool identifier to descriptor (most recent
write first). -/
structure sfa_state where
  head_pool : Option Nat
  tail_pool : Option Nat
  next_id : Nat
  pools : List (Nat × sfa_pool_descriptor)
  deriving DecidableEq

/-- The state produced by the first call of __sfa_get_state: head_pool and
tail_pool NULL, no pool reserved yet. -/
def sfa_initial_state : sfa_state :=
  { head_pool := none, tail_pool := none, next_id := 0, pools := [] }

/-- Load the descriptor at byte offset off of pool pid, if any. -/
def blockAt (s : sfa_state) (pid off : Nat) : Option sfa_allocation_descriptor :=
  match s.pools.lookup pid with
  | none => none
  | some pool => pool.mem.lookup off

/-- uint64_t remainder = size % SFA_ALLOCATION_ALIGNMENT_SIZE;
    uint64_t boundary = size + remainder;  return boundary; -/
def __sfa_request_size_to_nearest_boundary (size : Nat) : Nat :=
  let remainder := size % SFA_ALLOCATION_ALIGNMENT_SIZE
  let boundary := u64_add size remainder
  boundary

/-- pages_required = size / gran + (size % gran > 0);
    pages_required = pages_required > 4 ? pages_required : 4;
    return pages_required * gran;
The two additions cannot wrap for uint64 inputs with gran > 0, so they are
plain Nat additions; the final product can wrap and keeps the modulus. -/
def __sfa_request_size_to_minimum_pool_size (gran size : Nat) : Nat :=
  let pages_required := size / gran + (if size % gran > 0 then 1 else 0)
  let pages_required :=
    if pages_required > SFA_ALLOCATION_MINIMUM_PAGES_PER_POOL then pages_required
    else SFA_ALLOCATION_MINIMUM_PAGES_PER_POOL
  u64_mul pages_required gran

/-- return (size > SFA_ALLOCATION_MINIMUM_SIZE) ? size : SFA_ALLOCATION_MINIMUM_SIZE; -/
def __sfa_request_size_to_minimum_alloc_size (size : Nat) : Nat :=
  if size > SFA_ALLOCATION_MINIMUM_SIZE then size else SFA_ALLOCATION_MINIMUM_SIZE

/-- __sfa_create_pool, lines 244-288.  The reservation returned by
__sfa_virtual_alloc is embedded as a fresh region addressed by offsets, with
the given pool identifier; next and prev are NULL (the caller links the
pool).  The initial free-list descriptor is written at the start of the
memory region. -/
def __sfa_create_pool (gran pool_size id : Nat) : sfa_pool_descriptor :=
  let actual_reserve_size := __sfa_request_size_to_minimum_pool_size gran pool_size
  let offset_size := __sfa_request_size_to_nearest_boundary sizeof_sfa_pool_descriptor
  let memory_offset := offset_size
  let memory_region_size := u64_sub actual_reserve_size offset_size
  let block_offset := __sfa_request_size_to_nearest_boundary sizeof_sfa_allocation_descriptor
  let free_list_desc : sfa_allocation_descriptor :=
    { is_occupied := false
      is_coallescable := true
      left_descriptor := none
      right_descriptor := none
      parent_pool := some id
      block_pointer := u64_add memory_offset block_offset
      block_offset := block_offset
      allocation_size := u64_sub memory_region_size offset_size }
  { next_pool := none
    prev_pool := none
    free_list := memory_offset
    memory_region := memory_offset
    memory_region_size := memory_region_size
    memory_region_occupancy := sizeof_sfa_allocation_descriptor
    pool_is_large := false
    mem := [(memory_offset, free_list_desc)] }

/-- sf_init, lines 420-431.  Note: the source performs no check of
state->head_pool; it unconditionally creates a pool and overwrites both
head_pool and tail_pool. -/
def sf_init (gran reserve_size : Nat) (s : sfa_state) : sfa_state :=
  let id := s.next_id
  let pool := __sfa_create_pool gran reserve_size id
  { head_pool := some id
    tail_pool := some id
    next_id := id + 1
    pools := (id, pool) :: s.pools }

/-- The while loop of __sfa_find_pool_for_alloc_fast, lines 298-312, run
with explicit fuel.  The source loop body never updates current_pool, which
the embedding reproduces: the recursive call passes current unchanged.
Results: none = no answer with this fuel (the loop is still running, or a
dangling reference would have crashed); some none = the loop exited with
current == NULL; some (some pid) = the pool pid was selected. -/
def __sfa_find_fast_loop (s : sfa_state) (size : Nat) (current : Option Nat) :
    Nat → Option (Option Nat)
  | 0 => none
  | fuel + 1 =>
    match current with
    | none => some none
    | some pid =>
      match s.pools.lookup pid with
      | none => none
      | some pool =>
        match pool.mem.lookup pool.free_list with
        | none => none
        | some node =>
          if size ≤ node.allocation_size then some (some pid)
          else __sfa_find_fast_loop s size current fuel

/-- __sfa_find_pool_for_alloc_fast, lines 290-327.  When the loop exits
without a pool, a new pool is created for size + sizeof(sfa_pool_descriptor),
its prev_pool is set to the old tail_pool, and tail_pool is redirected to
it.  Faithful to the source: the old tail's next_pool is never written and
head_pool is never written.  The trailing SFA_ASSERT that the new pool
free-list head fits the request is embedded as a none result on failure.
The search result (pool, list_node) is embedded as the pool identifier,
since list_node is the address of that pool's free_list field. -/
def __sfa_find_pool_for_alloc_fast (gran size fuel : Nat) (s : sfa_state) :
    Option (Nat × sfa_state) :=
  match __sfa_find_fast_loop s size s.head_pool fuel with
  | none => none
  | some (some pid) => some (pid, s)
  | some none =>
    let id := s.next_id
    let new_pool := __sfa_create_pool gran (u64_add size sizeof_sfa_pool_descriptor) id
    let new_pool_linked : sfa_pool_descriptor :=
      { new_pool with prev_pool := s.tail_pool, next_pool := none }
    let s2 : sfa_state :=
      { head_pool := s.head_pool
        tail_pool := some id
        next_id := id + 1
        pools := (id, new_pool_linked) :: s.pools }
    match new_pool_linked.mem.lookup new_pool_linked.free_list with
    | none => none
    | some node => if size ≤ node.allocation_size then some (id, s2) else none

/-- Zeroed memory, as delivered by VirtualAlloc: all descriptor fields read
as zero / NULL / false before anything is written there. -/
def zeroed_descriptor : sfa_allocation_descriptor :=
  { is_occupied := false
    is_coallescable := false
    left_descriptor := none
    right_descriptor := none
    parent_pool := none
    block_pointer := 0
    block_offset := 0
    allocation_size := 0 }

/-- __sfa_accomodate_allocation, lines 329-362.  Faithful to the source:
  - the new descriptor is written at block_pointer + block (the end of the
    carved region); its parent_pool, block_pointer and block_offset fields
    are never assigned, so they keep whatever the memory held (zeroes in
    fresh memory, stale values otherwise);
  - the statement *node->right_descriptor = new_descriptor is embedded under
    its evident intent (*node)->right_descriptor = new_descriptor, the only
    reading that type-checks in C;
  - the carved node is never marked occupied, its allocation_size is never
    reduced, and the pool free_list pointer is never moved;
  - occupancy grows by block + (*node)->block_offset;
  - the opening SFA_ASSERT on the node size is embedded as a none result.
The returned user pointer is the pair (pool identifier, offset) of
new_free_region, exactly what the source returns. -/
def __sfa_accomodate_allocation (block : Nat) (pid : Nat) (s : sfa_state) :
    Option ((Nat × Nat) × sfa_state) :=
  match s.pools.lookup pid with
  | none => none
  | some pool =>
    match pool.mem.lookup pool.free_list with
    | none => none
    | some node =>
      if block ≤ node.allocation_size then
        let memory_block_begin := node.block_pointer
        let new_free_region := u64_add memory_block_begin block
        let stale : sfa_allocation_descriptor :=
          match pool.mem.lookup new_free_region with
          | some d => d
          | none => zeroed_descriptor
        let new_descriptor : sfa_allocation_descriptor :=
          { stale with
            is_occupied := false
            is_coallescable := true
            left_descriptor := some pool.free_list
            right_descriptor := node.right_descriptor
            allocation_size := u64_sub (u64_sub node.allocation_size node.block_offset) block }
        let node2 : sfa_allocation_descriptor :=
          { node with right_descriptor := some new_free_region }
        let mem2 := (pool.free_list, node2) :: (new_free_region, new_descriptor) :: pool.mem
        let pool2 : sfa_pool_descriptor :=
          { pool with
            mem := mem2
            memory_region_occupancy :=
              u64_add pool.memory_region_occupancy (u64_add block node.block_offset) }
        some ((pid, new_free_region), { s with pools := (pid, pool2) :: s.pools })
      else none

/-- sf_alloc, lines 433-456, with the search fuel made explicit.  A none
result means an assertion failed, a dangling reference was followed, or the
pool search never returned. -/
def sf_alloc (gran fuel size : Nat) (s : sfa_state) : Option ((Nat × Nat) × sfa_state) :=
  let s1 := if s.head_pool = none then sf_init gran SFA_DEFAULT_INITIAL_POOL_SIZE s else s
  let required_size := __sfa_request_size_to_minimum_alloc_size size
  let nearest_boundary := __sfa_request_size_to_nearest_boundary required_size
  match __sfa_find_pool_for_alloc_fast gran nearest_boundary fuel s1 with
  | none => none
  | some (pid, s2) => __sfa_accomodate_allocation nearest_boundary pid s2

/-- sf_free, lines 458-464.  The body of the source function is empty: it
reads nothing and writes nothing. -/
def sf_free (s : sfa_state) (ptr : Nat × Nat) : sfa_state := s

/-- Win32 allocation granularity reported by __sfa_virtual_size. -/
def win32_granularity : Nat := 65536

/-- The state after the default lazy initialization: one 256 KiB pool with
identifier 0. -/
def demoState : sfa_state :=
  sf_init win32_granularity SFA_DEFAULT_INITIAL_POOL_SIZE sfa_initial_state

/-- The pool created by the default lazy initialization. -/
def demoPool : sfa_pool_descriptor :=
  __sfa_create_pool win32_granularity SFA_DEFAULT_INITIAL_POOL_SIZE 0

/-- The initial free-list descriptor of demoPool, with every field written
out: header at offset 80, payload at offset 160, payload size
262144 - 160 = 261984. -/
def demoFreeBlock : sfa_allocation_descriptor :=
  { is_occupied := false
    is_coallescable := true
    left_descriptor := none
    right_descriptor := none
    parent_pool := some 0
    block_pointer := 160
    block_offset := 80
    allocation_size := 261984 }

example : demoState.pools.lookup 0 = some demoPool := by decide
example : demoPool.mem.lookup demoPool.free_list = some demoFreeBlock := by decide
example : demoPool.free_list = 80 ∧ demoPool.memory_region_size = 262064 := by decide

/-- uint64 subtraction agrees with Nat subtraction when no wrap occurs. -/
theorem u64_sub_eq_sub (a b : Nat) (hba : b ≤ a) (ha : a < U64) : u64_sub a b = a - b := by
  have h1 : a + U64 - b = a - b + U64 := by omega
  unfold u64_sub
  rw [h1, Nat.add_mod_right]
  exact Nat.mod_eq_of_lt (lt_of_le_of_lt (Nat.sub_le a b) ha)

/-- Full characterization of __sfa_create_pool when the reservation is at
least 160 bytes and below 2^64: the pool header footprint is 80 bytes, the
initial free-list header sits at offset 80, its payload begins at offset
160, and its recorded payload size is the reservation size minus 160. -/
theorem create_pool_eq (gran size id : Nat)
    (h1 : 160 ≤ __sfa_request_size_to_minimum_pool_size gran size)
    (h2 : __sfa_request_size_to_minimum_pool_size gran size < U64) :
    __sfa_create_pool gran size id =
      { next_pool := none
        prev_pool := none
        free_list := 80
        memory_region := 80
        memory_region_size := __sfa_request_size_to_minimum_pool_size gran size - 80
        memory_region_occupancy := 56
        pool_is_large := false
        mem := [(80,
          { is_occupied := false
            is_coallescable := true
            left_descriptor := none
            right_descriptor := none
            parent_pool := some id
            block_pointer := 160
            block_offset := 80
            allocation_size := __sfa_request_size_to_minimum_pool_size gran size - 160 })] } := by
  have e1 : __sfa_request_size_to_nearest_boundary sizeof_sfa_pool_descriptor = 80 := by decide
  have e2 : __sfa_request_size_to_nearest_boundary sizeof_sfa_allocation_descriptor = 80 := by decide
  have e2b : __sfa_request_size_to_nearest_boundary 56 = 80 := by decide
  have e3 : u64_add 80 80 = 160 := by decide
  have s1 : u64_sub (__sfa_request_size_to_minimum_pool_size gran size) 80 =
      __sfa_request_size_to_minimum_pool_size gran size - 80 :=
    u64_sub_eq_sub _ 80 (by omega) h2
  have s2 : u64_sub (__sfa_request_size_to_minimum_pool_size gran size - 80) 80 =
      __sfa_request_size_to_minimum_pool_size gran size - 80 - 80 :=
    u64_sub_eq_sub _ 80 (by omega) (lt_of_le_of_lt (Nat.sub_le _ _) h2)
  have s3 : __sfa_request_size_to_minimum_pool_size gran size - 80 - 80 =
      __sfa_request_size_to_minimum_pool_size gran size - 160 := by omega
  simp only [__sfa_create_pool, e1, e2, e2b, e3, s1, s2, s3, sizeof_sfa_allocation_descriptor]

/-- When the free-list head of the pool under the loop cursor is too small
for the request, the loop of __sfa_find_pool_for_alloc_fast never produces
an answer, with any amount of fuel: the source loop body does not advance
current_pool. -/
theorem find_fast_loop_stuck (s : sfa_state) (size pid : Nat)
    (pool : sfa_pool_descriptor) (node : sfa_allocation_descriptor)
    (hp : s.pools.lookup pid = some pool)
    (hn : pool.mem.lookup pool.free_list = some node)
    (hs : node.allocation_size < size) :
    ∀ fuel, __sfa_find_fast_loop s size (some pid) fuel = none := by
  intro fuel
  induction fuel with
  | zero => rfl
  | succ n ih =>
    simp only [__sfa_find_fast_loop, hp, hn]
    rw [if_neg (Nat.not_le.mpr hs)]
    exact ih

/-- Lifting of find_fast_loop_stuck to __sfa_find_pool_for_alloc_fast: when
head_pool points at a pool whose free-list head is too small, the search
returns no result for any fuel. -/
theorem find_pool_fast_stuck (gran size fuel : Nat) (s : sfa_state) (pid : Nat)
    (pool : sfa_pool_descriptor) (node : sfa_allocation_descriptor)
    (hhead : s.head_pool = some pid)
    (hp : s.pools.lookup pid = some pool)
    (hn : pool.mem.lookup pool.free_list = some node)
    (hs : node.allocation_size < size) :
    __sfa_find_pool_for_alloc_fast gran size fuel s = none := by
  have h := find_fast_loop_stuck s size pid pool node hp hn hs fuel
  simp only [__sfa_find_pool_for_alloc_fast, hhead, h]

/-- Claim C1.  The claim states that carving marks an occupied prefix of
exactly the rounded request size, creates a free suffix only when the
remainder is at least the minimum block size, and returns the address
immediately following the occupied header.  The code does none of this: on
the initial 256 KiB pool (free header at offset 80, payload at offset 160),
carving 64 bytes returns offset 224 = payload + 64 (the end of the carved
region, where the code also writes the new free suffix header), the prefix
header at offset 80 is never marked occupied, and a free header sits exactly
at the returned user pointer. -/
theorem C1_accomodate_diverges :
    ((__sfa_accomodate_allocation 64 0 demoState).map (fun r => r.1)) = some (0, 224) ∧
    ((__sfa_accomodate_allocation 64 0 demoState).bind (fun r => blockAt r.2 0 80)).map
      (fun d => d.is_occupied) = some false ∧
    ((__sfa_accomodate_allocation 64 0 demoState).bind (fun r => blockAt r.2 0 224)).map
      (fun d => d.is_occupied) = some false := by decide

/-- Claim C2.  The claim states that sf_free locates the block header,
marks the block free and coalesces with free neighbors.  The body of
sf_free in the source is empty, so releasing any pointer changes nothing at
all: the allocator state after sf_free is identical to the state before. -/
theorem C2_sf_free_is_noop : ∀ (s : sfa_state) (ptr : Nat × Nat), sf_free s ptr = s :=
  fun _ _ => rfl

/-- Claim C3.  The claim states that the fast-fit search examines pools in
creation order and, when no pool qualifies, creates exactly one new pool.
The source loop never advances current_pool, so as soon as the head pool
free-list head is too small for the request (here 2^62 bytes against a
256 KiB pool) the search loops forever: it returns no result for any fuel,
never reaching the pool-creation path. -/
theorem C3_pool_search_never_terminates :
    ∀ fuel, __sfa_find_pool_for_alloc_fast win32_granularity (2 ^ 62) fuel demoState = none :=
  fun fuel =>
    find_pool_fast_stuck win32_granularity (2 ^ 62) fuel demoState 0 demoPool demoFreeBlock
      (by decide) (by decide) (by decide) (by decide)

/-- Claim C4.  The claim states that sf_alloc always runs to completion,
with the pool search bounded by the pool-list length.  Requesting 2^62
bytes from the initial state lazily creates the 256 KiB default pool, whose
free head cannot fit the request; the search loop then re-tests the same
head pool forever, so sf_alloc produces no result for any fuel. -/
theorem C4_sf_alloc_never_terminates :
    ∀ fuel, sf_alloc win32_granularity fuel (2 ^ 62) sfa_initial_state = none := by
  intro fuel
  have h := find_pool_fast_stuck win32_granularity
    (__sfa_request_size_to_nearest_boundary (__sfa_request_size_to_minimum_alloc_size (2 ^ 62)))
    fuel demoState 0 demoPool demoFreeBlock (by decide) (by decide) (by decide) (by decide)
  simp only [sf_alloc]
  have hif : (if sfa_initial_state.head_pool = none then
      sf_init win32_granularity SFA_DEFAULT_INITIAL_POOL_SIZE sfa_initial_state
      else sfa_initial_state) = demoState := rfl
  rw [hif, h]

/-- Claim C5.  The claim states that __sfa_request_size_to_nearest_boundary
returns the smallest multiple of 32 that is at least the request.  The code
computes size + size % 32: at size 33 it returns 34, which is not a
multiple of 32 at all (the smallest multiple of 32 at least 33 is 64). -/
theorem C5_boundary_not_aligned :
    __sfa_request_size_to_nearest_boundary 33 = 34 ∧
    34 % SFA_ALLOCATION_ALIGNMENT_SIZE ≠ 0 ∧
    __sfa_request_size_to_nearest_boundary 33 ≠ 64 := by decide

/-- Claim C6.  The claim states that every address returned by sf_alloc is
a multiple of 32 and that round_to_alignment(max(s, 32)) bytes are
reserved.  For s = 33 the returned user pointer sits at offset 194 from the
granularity-aligned pool base (194 % 32 = 2, so the address cannot be a
multiple of 32), and the new free suffix header is written at that same
offset 194 = 160 + 34, i.e. only 34 bytes were carved instead of 64. -/
theorem C6_alloc_misaligned :
    ((sf_alloc win32_granularity 1 33 sfa_initial_state).map (fun r => r.1)) = some (0, 194) ∧
    194 % SFA_ALLOCATION_ALIGNMENT_SIZE ≠ 0 ∧
    ((sf_alloc win32_granularity 1 33 sfa_initial_state).bind (fun r => blockAt r.2 0 194)) ≠
      none := by decide

/-- Claim C7.  The claim states that sf_init is a no-op when a pool already
exists.  The source never checks head_pool: calling sf_init on a state that
already holds pool 0 creates a second pool and redirects both head_pool and
tail_pool to it. -/
theorem C7_init_not_idempotent :
    (sf_init win32_granularity SFA_DEFAULT_INITIAL_POOL_SIZE demoState).head_pool ≠
      demoState.head_pool ∧
    (sf_init win32_granularity SFA_DEFAULT_INITIAL_POOL_SIZE demoState).tail_pool ≠
      demoState.tail_pool ∧
    (sf_init win32_granularity SFA_DEFAULT_INITIAL_POOL_SIZE demoState).pools.length =
      demoState.pools.length + 1 := by decide

/-- Claim C8.  For every requested pool size whose reservation is at least
160 bytes and representable in uint64, the created pool free list is a
single free block: its header is the only descriptor in the region and is
the free_list target, it is marked free with both neighbor links null, its
recorded payload size is the usable region minus the block own header
footprint, and the occupancy counter starts at sizeof(descriptor). -/
theorem C8_create_pool_free_list (gran size : Nat)
    (h1 : 160 ≤ __sfa_request_size_to_minimum_pool_size gran size)
    (h2 : __sfa_request_size_to_minimum_pool_size gran size < U64) :
    ∃ d : sfa_allocation_descriptor,
      (__sfa_create_pool gran size 0).mem = [((__sfa_create_pool gran size 0).free_list, d)] ∧
      d.is_occupied = false ∧
      d.left_descriptor = none ∧
      d.right_descriptor = none ∧
      d.allocation_size = (__sfa_create_pool gran size 0).memory_region_size - d.block_offset ∧
      (__sfa_create_pool gran size 0).memory_region_occupancy =
        sizeof_sfa_allocation_descriptor := by
  rw [create_pool_eq gran size 0 h1 h2]
  refine ⟨_, rfl, rfl, rfl, rfl, ?_, rfl⟩
  show __sfa_request_size_to_minimum_pool_size gran size - 160 =
    __sfa_request_size_to_minimum_pool_size gran size - 80 - 80
  omega

/-- Witness for C8 at gran = 65536 and size = 262144 (reservation 262144
bytes). -/
theorem C8_create_pool_free_list_witness :
    (160 ≤ __sfa_request_size_to_minimum_pool_size 65536 262144 ∧
      __sfa_request_size_to_minimum_pool_size 65536 262144 < U64) ∧
    (∃ d : sfa_allocation_descriptor,
      (__sfa_create_pool 65536 262144 0).mem =
        [((__sfa_create_pool 65536 262144 0).free_list, d)] ∧
      d.is_occupied = false ∧
      d.left_descriptor = none ∧
      d.right_descriptor = none ∧
      d.allocation_size =
        (__sfa_create_pool 65536 262144 0).memory_region_size - d.block_offset ∧
      (__sfa_create_pool 65536 262144 0).memory_region_occupancy =
        sizeof_sfa_allocation_descriptor) :=
  ⟨⟨by decide, by decide⟩, C8_create_pool_free_list 65536 262144 (by decide) (by decide)⟩

/-- Claim C9.  The claim states that the address ranges of two distinct
live allocations never overlap.  Carving never updates the pool free list
nor the carved node size, so two consecutive sf_alloc(64) calls from the
initial state both return the same user pointer, pool 0 offset 224: the two
live 64-byte allocations occupy the same range. -/
theorem C9_two_allocs_same_pointer :
    ((sf_alloc win32_granularity 1 64 sfa_initial_state).map (fun r => r.1)) = some (0, 224) ∧
    ((sf_alloc win32_granularity 1 64 sfa_initial_state).bind
      (fun r => sf_alloc win32_granularity 1 64 r.2)).map (fun r => r.1) = some (0, 224) := by
  decide

/-- Claim C10.  For every requested pool size whose reservation is at least
160 bytes and representable in uint64, the initial free block payload lies
inside the OS reservation: its offset from the reservation base plus its
recorded allocation_size equals the reservation size exactly, hence is at
most the reserved total. -/
theorem C10_initial_block_in_bounds (gran size : Nat)
    (h1 : 160 ≤ __sfa_request_size_to_minimum_pool_size gran size)
    (h2 : __sfa_request_size_to_minimum_pool_size gran size < U64) :
    ∃ d : sfa_allocation_descriptor,
      (__sfa_create_pool gran size 0).mem = [((__sfa_create_pool gran size 0).free_list, d)] ∧
      d.block_pointer + d.allocation_size ≤ __sfa_request_size_to_minimum_pool_size gran size := by
  rw [create_pool_eq gran size 0 h1 h2]
  refine ⟨_, rfl, ?_⟩
  show 160 + (__sfa_request_size_to_minimum_pool_size gran size - 160) ≤
    __sfa_request_size_to_minimum_pool_size gran size
  omega

/-- Witness for C10 at gran = 65536 and size = 1 (reservation floored to 4
granularity units, 262144 bytes). -/
theorem C10_initial_block_in_bounds_witness :
    (160 ≤ __sfa_request_size_to_minimum_pool_size 65536 1 ∧
      __sfa_request_size_to_minimum_pool_size 65536 1 < U64) ∧
    (∃ d : sfa_allocation_descriptor,
      (__sfa_create_pool 65536 1 0).mem = [((__sfa_create_pool 65536 1 0).free_list, d)] ∧
      d.block_pointer + d.allocation_size ≤ __sfa_request_size_to_minimum_pool_size 65536 1) :=
  ⟨⟨by decide, by decide⟩, C10_initial_block_in_bounds 65536 1 (by decide) (by decide)⟩

end SFA
